import Mathlib

/-
Verification of the SAC (Soft Actor-Critic) trainer of the RLOP repository.

The development shallowly embeds the algorithmic content of
src/rlop/rl/sac/sac.h and src/rlop/rl/rl.h over exact rational arithmetic:
tensors that the claims inspect become rationals or lists of rationals,
the stateful training loop becomes explicit state passing, and the external
collaborators (environment, actor network, critic networks, Adam optimizers)
become abstract function parameters gathered in a model structure, exactly
at the interface boundary the spec declares for them.

The helper library torch_utils.h and the replay-buffer header buffers.h are
part of the repository but are not present under src/; the definitions that
stand in for them (PolyakUpdate, CopyStateDict, the replay buffer) are
modelled from the spec and are marked as such in their doc comments.
-/

namespace RLOP

/-! ## Numeric core of SAC::Train (sac.h lines 136-192) -/

/-- Minimum of a list of Q-values: models `std::get<0>(stacked.min(1))`,
the minimum over the critic ensemble outputs (sac.h lines 158-159, 163, 178).
The ensemble is nonempty (the spec requires at least two members); on the
empty list the function returns 0. -/
def listMin : List ℚ → ℚ
  | [] => 0
  | x :: xs => xs.foldl min x

/-- Entropy-corrected next-state value, sac.h line 159:
`next_q_values = min(next_q_values) - ent_coef * next_log_prob`. -/
def nextQValue (targetOuts : List ℚ) (ent_coef next_log_prob : ℚ) : ℚ :=
  listMin targetOuts - ent_coef * next_log_prob

/-- Target Q-value, sac.h line 160:
`target_q_values = batch.reward + (1 - batch.done) * gamma_ * next_q_values`. -/
def targetQValue (gamma reward done nextQ : ℚ) : ℚ :=
  reward + (1 - done) * gamma * nextQ

/-- Per-ensemble-member critic loss contribution, sac.h lines 166-170:
mean-squared error of one ensemble member output against the target, for a
single batch element. -/
def criticSquaredError (current_q target_q : ℚ) : ℚ :=
  (current_q - target_q) * (current_q - target_q)

/-- Actor loss for one batch element, sac.h line 179:
`(ent_coef * log_prob - min_qf_pi)`. -/
def actorLossElem (ent_coef log_prob min_qf_pi : ℚ) : ℚ :=
  ent_coef * log_prob - min_qf_pi

/-- Entropy-coefficient loss for one batch element, sac.h line 143:
`-(log_ent_coef * (log_prob + target_entropy).detach())`. -/
def entCoefLossElem (log_ent_coef log_prob target_entropy : ℚ) : ℚ :=
  -(log_ent_coef * (log_prob + target_entropy))

/-! ## Polyak update and state-dict copy (torch_utils.h, not under src/) -/

/-- Modelled from the spec: `torch_utils::PolyakUpdate` of torch_utils.h is
not under src/; spec section 4.5 step 7 gives its contract:
Polyak-average source parameters into target parameters with interpolation
factor tau, elementwise `target := tau*source + (1-tau)*target`. -/
def polyakUpdate (source target : List ℚ) (tau : ℚ) : List ℚ :=
  List.zipWith (fun s t => tau * s + (1 - tau) * t) source target

/-! ## Transitions and the replay buffer -/

/-- One stored transition (spec section 3); for the claims under scrutiny a
single parallel environment with size-1 observation and action tensors
suffices, so each tensor is one rational. -/
structure Transition where
  observation : ℚ
  action : ℚ
  next_observation : ℚ
  reward : ℚ
  done : ℚ
deriving DecidableEq, Repr

/-- Modelled from the spec: the ReplayBuffer of buffers.h is not under src/;
spec sections 3 and 4.1 give its contract: a bounded store whose `Add`
appends one transition, overwriting the oldest entry once capacity is
reached. -/
structure ReplayBuffer where
  capacity : ℕ
  data : List Transition
deriving DecidableEq, Repr

/-- Modelled from the spec: `ReplayBuffer::Add` appends one transition,
evicting the oldest stored transition when the buffer is at capacity. -/
def ReplayBuffer.Add (b : ReplayBuffer) (t : Transition) : ReplayBuffer :=
  if b.data.length < b.capacity then ⟨b.capacity, b.data ++ [t]⟩
  else ⟨b.capacity, b.data.tail ++ [t]⟩

/-! ## Configuration and external collaborators -/

/-- The scalar construction parameters of SAC (sac.h lines 9-34). Loop
counts are naturals: the C++ loops `for (Int step = 0; step < n; ++step)`
execute n iterations for the nonnegative counts every claim concerns. -/
structure SACConfig where
  learning_starts : ℕ
  batch_size : ℕ
  tau : ℚ
  gamma : ℚ
  ent_coef : ℚ
  auto_ent_coef : Bool
  train_freq : ℕ
  gradient_steps : ℕ
  target_update_interval : ℕ

/-- The external collaborators the trainer consumes, abstracted exactly at
the interface boundary spec section 2 draws: the vectorized environment
(`Step` indexed by the number of calls made so far, deterministic for a
given call index and action, as with the deterministic stub environments
the spec uses), the exploration sampler, the actor action prediction,
and the critic parameter/buffer vectors produced by the critic optimizer
and the running-statistics updates of each gradient step, which are opaque
Adam/network internals (spec: out of scope, external capability). -/
structure SACModel where
  numEnvs : ℕ
  resetObs : ℚ
  step : ℕ → ℚ → ℚ × ℚ × ℚ
  sampleAction : ℕ → ℚ
  predictAction : ℚ → ℚ
  bufferCapacity : ℕ
  initCriticParams : List ℚ
  initCriticBuffers : List ℚ
  criticOpt : ℕ → List ℚ
  criticBufUpdate : ℕ → List ℚ

/-! ## The trainer state -/

/-- The mutable state of the RL/SAC object that the claims inspect:
the counters of rl.h lines 180-183, the replay buffer, the critic and
critic-target parameter and buffer vectors, and the current observation.
`env_calls` counts `Step` invocations (the abstract environment state);
`synced_at` is ghost instrumentation recording the gradient-step indices at
which the target synchronization of sac.h lines 185-192 fired during the
current `Train` call. -/
structure SACState where
  num_iters : ℕ
  time_steps : ℕ
  num_updates : ℕ
  buffer : ReplayBuffer
  critic_params : List ℚ
  critic_buffers : List ℚ
  critic_target_params : List ℚ
  critic_target_buffers : List ℚ
  observation : ℚ
  env_calls : ℕ
  synced_at : List ℕ

/-- SAC::Reset, sac.h lines 56-84: zero the counters (rl.h lines 64-67),
build a fresh replay buffer and fresh critic and critic-target networks,
then copy the critic state dict into the target
(`torch_utils::CopyStateDict`, modelled from the spec: the target starts
bit-identical to the critic), and reset the environment. -/
def resetState (m : SACModel) : SACState :=
  { num_iters := 0
    time_steps := 0
    num_updates := 0
    buffer := ⟨m.bufferCapacity, []⟩
    critic_params := m.initCriticParams
    critic_buffers := m.initCriticBuffers
    critic_target_params := m.initCriticParams
    critic_target_buffers := m.initCriticBuffers
    observation := m.resetObs
    env_calls := 0
    synced_at := [] }

/-- One environment interaction shared by the warmup and rollout loops
(sac.h lines 102-105 and 109-112): step the environment, add the
transition to the replay buffer, advance the current observation. -/
def envInteract (m : SACModel) (s : SACState) (action : ℚ) : SACState :=
  let r := m.step s.env_calls action
  { s with
    buffer := s.buffer.Add ⟨s.observation, action, r.1, r.2.1, r.2.2⟩
    observation := r.1
    env_calls := s.env_calls + 1 }

/-- One iteration of the warmup loop, sac.h lines 101-106: an exploratory
action via `SampleAction`; `time_steps_` is not advanced. -/
def warmupStep (m : SACModel) (s : SACState) : SACState :=
  envInteract m s (m.sampleAction s.env_calls)

/-- One iteration of the policy rollout loop, sac.h lines 108-114: an
action via the actor method `PredictAction` on the current observation, then
`time_steps_ += NumEnvs()`. -/
def rolloutStep (m : SACModel) (s : SACState) : SACState :=
  let s1 := envInteract m s (m.predictAction s.observation)
  { s1 with time_steps := s1.time_steps + m.numEnvs }

/-- SAC::CollectRollouts, sac.h lines 96-115: in iteration 0 only, take
`learning_starts` exploratory steps; then in every iteration take
`train_freq` policy steps. -/
def collectRollouts (m : SACModel) (cfg : SACConfig) (s : SACState) : SACState :=
  let s1 := if s.num_iters = 0 then (warmupStep m)^[cfg.learning_starts] s else s
  (rolloutStep m)^[cfg.train_freq] s1

/-- One gradient step of SAC::Train, sac.h lines 136-192, restricted to its
effect on the trainer state: the critic optimizer step replaces the critic
parameters and the train-mode forward passes replace its running-statistic
buffers (both vectors supplied by the abstract model, since Adam and the
networks are external); then, when the local step index `k` satisfies
`step % target_update_interval_ == 0` (line 185), the critic is
Polyak-averaged into the target with factor tau and the buffers with
factor 1.0 (lines 186-191), and the ghost sync log records `k`. -/
def trainStep (m : SACModel) (cfg : SACConfig) (s : SACState) (k : ℕ) : SACState :=
  if k % cfg.target_update_interval = 0 then
    { s with
      critic_params := m.criticOpt k
      critic_buffers := m.criticBufUpdate k
      critic_target_params := polyakUpdate (m.criticOpt k) s.critic_target_params cfg.tau
      critic_target_buffers := polyakUpdate (m.criticBufUpdate k) s.critic_target_buffers 1
      synced_at := s.synced_at ++ [k] }
  else
    { s with critic_params := m.criticOpt k, critic_buffers := m.criticBufUpdate k }

/-- SAC::Train, sac.h lines 121-218: run `gradient_steps` gradient steps
with a local step index starting at 0, then `num_updates_ +=
gradient_steps_` (line 194). The ghost sync log is cleared on entry so it
records exactly the synchronizations of this call. -/
def Train (m : SACModel) (cfg : SACConfig) (s : SACState) : SACState :=
  let s1 := (List.range cfg.gradient_steps).foldl (trainStep m cfg) { s with synced_at := [] }
  { s1 with num_updates := s1.num_updates + cfg.gradient_steps }

/-- RL::Update, rl.h lines 116-118: `++num_iters_`. -/
def updateIters (s : SACState) : SACState :=
  { s with num_iters := s.num_iters + 1 }

/-- The body of the RL::Learn loop, rl.h lines 92-98: CollectRollouts,
Train, Monitor, Checkpoint, Update. Monitor and Checkpoint only emit logs
and checkpoint files and leave the trainer state unchanged. -/
def learnIter (m : SACModel) (cfg : SACConfig) (s : SACState) : SACState :=
  updateIters (Train m cfg (collectRollouts m cfg s))

/-- Entry of RL::Learn, rl.h line 88: `time_steps_ = 0`. The loop then
repeats `learnIter` while `time_steps_ < max_time_steps_`. -/
def learnInit (s : SACState) : SACState :=
  { s with time_steps := 0 }

/-- The deterministic stub collaborators of the end-to-end scenario of spec
section 8: one parallel environment, constant reward 1, done 0, size-1
observations and actions. The critic starts with two parameters and one
running-statistic buffer; the abstract optimizer and statistics updates
produce fixed fresh vectors of the same sizes. -/
def stubModel : SACModel :=
  { numEnvs := 1
    resetObs := 0
    step := fun _ _ => (0, 1, 0)
    sampleAction := fun _ => 0
    predictAction := fun _ => 0
    bufferCapacity := 1000000
    initCriticParams := [2, -3]
    initCriticBuffers := [2]
    criticOpt := fun _ => [5, 7]
    criticBufUpdate := fun _ => [4] }

/-- The configuration of the end-to-end scenario of spec section 8. -/
def scenarioConfig : SACConfig :=
  { learning_starts := 10
    batch_size := 4
    tau := 1
    gamma := 99/100
    ent_coef := 1
    auto_ent_coef := true
    train_freq := 1
    gradient_steps := 1
    target_update_interval := 1 }

/-! ## Target-entropy initialization (sac.h lines 35-40 and 71-80) -/

/-- The entropy-target state of a SAC object right after its constructor
or Reset. C++ leaves members without initializers indeterminate, so both
fields are Options: `none` models an uninitialized member. -/
structure EntropyInit where
  target_entropy : Option ℚ
  auto_target_entropy : Option Bool
deriving DecidableEq, Repr

/-- The SAC constructor body, sac.h lines 35-40: if a target entropy is
supplied, only `target_entropy_` is assigned; otherwise only
`auto_target_entropy_` is set to true. The member not assigned stays
uninitialized (neither has a default member initializer, and the
constructor initializer list does not mention them). -/
def sacConstruct (target_entropy : Option ℚ) : EntropyInit :=
  match target_entropy with
  | some v => { target_entropy := some v, auto_target_entropy := none }
  | none => { target_entropy := none, auto_target_entropy := some true }

/-- The heuristic target entropy of sac.h lines 75-78:
`target_entropy_ = -1.0; for (size : action_sizes) target_entropy_ *= size`,
the negated product of the action dimensions. -/
def heuristicTargetEntropy (actionSizes : List ℕ) : ℚ :=
  actionSizes.foldl (fun a s => a * (s : ℚ)) (-1)

/-- The target-entropy part of SAC::Reset, sac.h lines 71-80: only when
`auto_ent_coef_` is true, the member `auto_target_entropy_` is read, and
when it reads true the heuristic default overwrites `target_entropy_`.
When `auto_target_entropy_` is uninitialized, the value the read yields is
indeterminate; `uninitRead` resolves it. -/
def resetTargetEntropy (auto_ent_coef : Bool) (actionSizes : List ℕ)
    (uninitRead : Bool) (e : EntropyInit) : EntropyInit :=
  if auto_ent_coef then
    if e.auto_target_entropy.getD uninitRead then
      { e with target_entropy := some (heuristicTargetEntropy actionSizes) }
    else e
  else e

/-! ## Persistence: SaveArchive / LoadArchive (sac.h lines 220-351) -/

/-- The scalar hyperparameter fields written and read by the hparams
section (sac.h lines 263-300 and 334-350). -/
structure Hparams where
  learning_starts : ℤ
  batch_size : ℤ
  lr : ℚ
  tau : ℚ
  gamma : ℚ
  ent_coef : ℚ
  target_entropy : ℚ
  auto_ent_coef : Bool
  train_freq : ℤ
  gradient_steps : ℤ
  target_update_interval : ℤ
deriving DecidableEq, Repr

/-- The archive section tags of sac.h LoadArchive/SaveArchive; the string
tags of the source become an enumerated tag type. -/
inductive SectionName
  | actor
  | critic
  | critic_target
  | actor_optimizer
  | critic_optimizer
  | ent_coef_optimizer
  | hparams
  | all
deriving DecidableEq, Repr

/-- Whether a section is requested (sac.h pattern
`names.count("all") || names.count(tag)`). -/
def wants (names : List SectionName) (n : SectionName) : Bool :=
  names.contains SectionName.all || names.contains n

/-- A serialized archive: every section and every hparams key is
independently optional (`try_read` distinguishes present from absent).
Network and optimizer payloads are their parameter vectors. -/
structure Archive where
  actor : Option (List ℚ)
  critic : Option (List ℚ)
  critic_target : Option (List ℚ)
  actor_optimizer : Option (List ℚ)
  critic_optimizer : Option (List ℚ)
  ent_coef_optimizer : Option (List ℚ)
  learning_starts : Option ℤ
  batch_size : Option ℤ
  lr : Option ℚ
  tau : Option ℚ
  gamma : Option ℚ
  ent_coef : Option ℚ
  target_entropy : Option ℚ
  auto_ent_coef : Option Bool
  train_freq : Option ℤ
  gradient_steps : Option ℤ
  target_update_interval : Option ℤ
  log_ent_coef : Option ℚ
  ent_coef_tensor : Option ℚ
deriving DecidableEq, Repr

/-- An archive with every section and key absent. -/
def Archive.empty : Archive :=
  { actor := none, critic := none, critic_target := none
    actor_optimizer := none, critic_optimizer := none
    ent_coef_optimizer := none
    learning_starts := none, batch_size := none, lr := none, tau := none
    gamma := none, ent_coef := none, target_entropy := none
    auto_ent_coef := none, train_freq := none, gradient_steps := none
    target_update_interval := none, log_ent_coef := none
    ent_coef_tensor := none }

/-- The persistent state of a SAC object: the loadable network and
optimizer payloads, whether the entropy optimizer exists
(`ent_coef_optimizer_ != nullptr`), the scalar hyperparameters, and the
two optional tensors (`torch::Tensor::defined()` distinguishes defined
from undefined). -/
structure SACPersist where
  actor : List ℚ
  critic : List ℚ
  critic_target : List ℚ
  actor_optimizer : List ℚ
  critic_optimizer : List ℚ
  ent_coef_optimizer : List ℚ
  has_ent_coef_optimizer : Bool
  hp : Hparams
  log_ent_coef : Option ℚ
  ent_coef_tensor : Option ℚ
deriving DecidableEq, Repr

/-- SAC::SaveArchive, sac.h lines 303-351: each requested section is
written; the ent_coef_optimizer section additionally requires the
optimizer to exist; within hparams, `log_ent_coef` and `ent_coef_tensor`
are written only when the corresponding tensors are defined. -/
def saveArchive (s : SACPersist) (names : List SectionName) : Archive :=
  { actor := if wants names SectionName.actor then some s.actor else none
    critic := if wants names SectionName.critic then some s.critic else none
    critic_target :=
      if wants names SectionName.critic_target then some s.critic_target else none
    actor_optimizer :=
      if wants names SectionName.actor_optimizer then some s.actor_optimizer else none
    critic_optimizer :=
      if wants names SectionName.critic_optimizer then some s.critic_optimizer else none
    ent_coef_optimizer :=
      if wants names SectionName.ent_coef_optimizer && s.has_ent_coef_optimizer then
        some s.ent_coef_optimizer
      else none
    learning_starts :=
      if wants names SectionName.hparams then some s.hp.learning_starts else none
    batch_size := if wants names SectionName.hparams then some s.hp.batch_size else none
    lr := if wants names SectionName.hparams then some s.hp.lr else none
    tau := if wants names SectionName.hparams then some s.hp.tau else none
    gamma := if wants names SectionName.hparams then some s.hp.gamma else none
    ent_coef := if wants names SectionName.hparams then some s.hp.ent_coef else none
    target_entropy :=
      if wants names SectionName.hparams then some s.hp.target_entropy else none
    auto_ent_coef :=
      if wants names SectionName.hparams then some s.hp.auto_ent_coef else none
    train_freq := if wants names SectionName.hparams then some s.hp.train_freq else none
    gradient_steps :=
      if wants names SectionName.hparams then some s.hp.gradient_steps else none
    target_update_interval :=
      if wants names SectionName.hparams then some s.hp.target_update_interval else none
    log_ent_coef := if wants names SectionName.hparams then s.log_ent_coef else none
    ent_coef_tensor := if wants names SectionName.hparams then s.ent_coef_tensor else none }

/-- The hparams part of SAC::LoadArchive, sac.h lines 263-299: each key is
`try_read`; a present key overwrites the field, an absent key leaves it
unchanged. -/
def loadHparams (a : Archive) (h : Hparams) : Hparams :=
  { learning_starts := a.learning_starts.getD h.learning_starts
    batch_size := a.batch_size.getD h.batch_size
    lr := a.lr.getD h.lr
    tau := a.tau.getD h.tau
    gamma := a.gamma.getD h.gamma
    ent_coef := a.ent_coef.getD h.ent_coef
    target_entropy := a.target_entropy.getD h.target_entropy
    auto_ent_coef := a.auto_ent_coef.getD h.auto_ent_coef
    train_freq := a.train_freq.getD h.train_freq
    gradient_steps := a.gradient_steps.getD h.gradient_steps
    target_update_interval := a.target_update_interval.getD h.target_update_interval }

/-- SAC::LoadArchive, sac.h lines 220-301: each requested section is
loaded only when present in the archive (`try_read` guards), otherwise the
state is untouched; the ent_coef_optimizer section additionally requires
the optimizer to exist; the two optional tensors of the hparams section
are overwritten only when present. -/
def loadArchive (a : Archive) (names : List SectionName) (s : SACPersist) : SACPersist :=
  { s with
    actor := if wants names SectionName.actor then a.actor.getD s.actor else s.actor
    critic := if wants names SectionName.critic then a.critic.getD s.critic else s.critic
    critic_target :=
      if wants names SectionName.critic_target then a.critic_target.getD s.critic_target
      else s.critic_target
    actor_optimizer :=
      if wants names SectionName.actor_optimizer then
        a.actor_optimizer.getD s.actor_optimizer
      else s.actor_optimizer
    critic_optimizer :=
      if wants names SectionName.critic_optimizer then
        a.critic_optimizer.getD s.critic_optimizer
      else s.critic_optimizer
    ent_coef_optimizer :=
      if wants names SectionName.ent_coef_optimizer && s.has_ent_coef_optimizer then
        a.ent_coef_optimizer.getD s.ent_coef_optimizer
      else s.ent_coef_optimizer
    hp := if wants names SectionName.hparams then loadHparams a s.hp else s.hp
    log_ent_coef :=
      if wants names SectionName.hparams then
        match a.log_ent_coef with
        | some v => some v
        | none => s.log_ent_coef
      else s.log_ent_coef
    ent_coef_tensor :=
      if wants names SectionName.hparams then
        match a.ent_coef_tensor with
        | some v => some v
        | none => s.ent_coef_tensor
      else s.ent_coef_tensor }

/-! ## Log items (rl.h lines 79-81, sac.h lines 86-94 and 195-217) -/

/-- The metric names appearing in `log_items_`; the string keys of the
source become an enumerated key type. -/
inductive LogKey
  | num_updates
  | ent_coef
  | actor_loss
  | critic_loss
  | q_value
  | reward
  | ent_coef_loss
deriving DecidableEq, Repr

/-- The log-items map as an association list from key to current value;
`none` models a default-constructed (undefined) tensor. -/
def LogItems := List (LogKey × Option ℚ)

/-- SAC::RegisterLogItems, sac.h lines 86-94: register the five base
metrics with undefined tensors, plus `ent_coef_loss` only when
`auto_ent_coef_` is true. (The override does not call
RL::RegisterLogItems, so `num_updates` is not registered.) -/
def registerLogItems (auto_ent_coef : Bool) : LogItems :=
  [(LogKey.ent_coef, none), (LogKey.actor_loss, none), (LogKey.critic_loss, none),
   (LogKey.q_value, none), (LogKey.reward, none)]
  ++ if auto_ent_coef then [(LogKey.ent_coef_loss, none)] else []

/-- One `find`-guarded assignment of the logging epilogue of SAC::Train
(sac.h lines 196-216): when the key is registered its value is replaced,
otherwise nothing happens. -/
def setLogItem (items : LogItems) (key : LogKey) (v : ℚ) : LogItems :=
  items.map fun p => if p.1 = key then (p.1, some v) else p

/-- The logging epilogue of SAC::Train, sac.h lines 195-217: assign, in
source order, each accumulated metric mean to its entry when the entry
is registered. -/
def trainLogUpdate (items : LogItems) (nu ec al cl ecl qv rw : ℚ) : LogItems :=
  setLogItem (setLogItem (setLogItem (setLogItem (setLogItem (setLogItem
    (setLogItem items LogKey.num_updates nu)
    LogKey.ent_coef ec)
    LogKey.actor_loss al)
    LogKey.critic_loss cl)
    LogKey.ent_coef_loss ecl)
    LogKey.q_value qv)
    LogKey.reward rw

/-- Lookup of a metric in the log-items map: `some (some v)` means
registered with value v, `some none` registered but still undefined,
`none` never registered. -/
def getLogItem (items : LogItems) (key : LogKey) : Option (Option ℚ) :=
  (items.find? fun p => p.1 = key).map Prod.snd

/-! ## Operation order of one gradient step (sac.h lines 136-192) -/

/-- The operations of one gradient step of SAC::Train, in the statement
granularity of the source. -/
inductive TrainEvent
  | sample_batch
  | actor_forward
  | ent_coef_compute
  | ent_coef_loss_compute
  | ent_coef_opt_step
  | target_q_compute
  | critic_forward
  | critic_opt_step
  | actor_loss_compute
  | actor_opt_step
  | target_sync
deriving DecidableEq, Repr

/-- The statement order of one gradient step of SAC::Train
(sac.h lines 136-192): sample the batch (137), actor forward on the batch
observations (138), compute the entropy coefficient (142 in auto mode, 147
in fixed mode) and in auto mode its loss (143) followed by the entropy
optimizer step (150-152), compute the target Q under no-grad (155-161),
critic forward and optimizer step (162-175), actor loss and optimizer step
(177-183), and, when the interval guard fires, the target sync (185-192). -/
def gradStepTrace (auto sync : Bool) : List TrainEvent :=
  [TrainEvent.sample_batch, TrainEvent.actor_forward, TrainEvent.ent_coef_compute]
  ++ (if auto then [TrainEvent.ent_coef_loss_compute, TrainEvent.ent_coef_opt_step] else [])
  ++ [TrainEvent.target_q_compute, TrainEvent.critic_forward, TrainEvent.critic_opt_step,
      TrainEvent.actor_loss_compute, TrainEvent.actor_opt_step]
  ++ (if sync then [TrainEvent.target_sync] else [])

/-! ## Derivatives with respect to the log entropy coefficient

The tensor-library autograd is embedded as forward-mode differentiation:
a `Dual` carries a value together with its derivative with respect to
`log_ent_coef_`, and `detach` zeroes the derivative, exactly the effect of
`torch::Tensor::detach()` on the gradient flowing back to
`log_ent_coef_`. -/

/-- A value paired with its derivative with respect to `log_ent_coef_`. -/
structure Dual where
  val : ℚ
  grad : ℚ
deriving DecidableEq, Repr

/-- A quantity that does not depend on `log_ent_coef_` (batch data,
network outputs, hyperparameters). -/
def Dual.const (c : ℚ) : Dual := ⟨c, 0⟩

/-- The effect of `detach()` on the derivative with respect to
`log_ent_coef_`. -/
def Dual.detach (d : Dual) : Dual := ⟨d.val, 0⟩

def Dual.add (a b : Dual) : Dual := ⟨a.val + b.val, a.grad + b.grad⟩

def Dual.sub (a b : Dual) : Dual := ⟨a.val - b.val, a.grad - b.grad⟩

def Dual.mul (a b : Dual) : Dual :=
  ⟨a.val * b.val, a.val * b.grad + a.grad * b.val⟩

def Dual.neg (a : Dual) : Dual := ⟨-a.val, -a.grad⟩

/-- Application of a differentiable unary function given by its value
function f and derivative function f+ via the chain rule; used for
`torch::exp`. -/
def Dual.applyFn (f fd : ℚ → ℚ) (a : Dual) : Dual :=
  ⟨f a.val, fd a.val * a.grad⟩

/-- The variable `log_ent_coef_` itself, of current value l. -/
def logEntCoefVar (l : ℚ) : Dual := ⟨l, 1⟩

/-- The entropy coefficient used in the losses, sac.h line 142:
`ent_coef = torch::exp(log_ent_coef_.detach())`. -/
def entCoefDetached (f fd : ℚ → ℚ) (l : ℚ) : Dual :=
  Dual.applyFn f fd (Dual.detach (logEntCoefVar l))

/-- The entropy-coefficient loss of sac.h line 143 for one batch element:
`-(log_ent_coef_ * (log_prob + target_entropy).detach())`. -/
def entCoefLossDual (l log_prob target_entropy : ℚ) : Dual :=
  Dual.neg (Dual.mul (logEntCoefVar l)
    (Dual.detach (Dual.add (Dual.const log_prob) (Dual.const target_entropy))))

/-- The target Q-value of sac.h lines 157-160 for one batch element, as a
function of `log_ent_coef_`: every other operand is batch data or a
network output, constant in `log_ent_coef_`. -/
def targetQDual (f fd : ℚ → ℚ) (l gamma reward done next_min_q next_log_prob : ℚ) : Dual :=
  Dual.add (Dual.const reward)
    (Dual.mul (Dual.mul (Dual.const (1 - done)) (Dual.const gamma))
      (Dual.sub (Dual.const next_min_q)
        (Dual.mul (entCoefDetached f fd l) (Dual.const next_log_prob))))

/-- The critic loss contribution of sac.h lines 166-170 for one ensemble
member and one batch element, as a function of `log_ent_coef_`. -/
def criticLossDual (f fd : ℚ → ℚ) (l gamma reward done next_min_q next_log_prob current_q : ℚ) : Dual :=
  Dual.mul
    (Dual.sub (Dual.const current_q) (targetQDual f fd l gamma reward done next_min_q next_log_prob))
    (Dual.sub (Dual.const current_q) (targetQDual f fd l gamma reward done next_min_q next_log_prob))

/-- The actor loss of sac.h line 179 for one batch element, as a function
of `log_ent_coef_`: `ent_coef * log_prob - min_qf_pi`. -/
def actorLossDual (f fd : ℚ → ℚ) (l log_prob min_qf_pi : ℚ) : Dual :=
  Dual.sub (Dual.mul (entCoefDetached f fd l) (Dual.const log_prob))
    (Dual.const min_qf_pi)

/-! ## Concrete sample data for witness evaluations -/

/-- Hyperparameter values of the SAC constructor defaults
(sac.h lines 10-20). -/
def sampleHparams : Hparams :=
  { learning_starts := 100
    batch_size := 256
    lr := 3/10000
    tau := 1/200
    gamma := 99/100
    ent_coef := 1
    target_entropy := -1
    auto_ent_coef := true
    train_freq := 1
    gradient_steps := 1
    target_update_interval := 1 }

/-- A concrete persistent state in auto entropy mode. -/
def samplePersist : SACPersist :=
  { actor := [1]
    critic := [2]
    critic_target := [3]
    actor_optimizer := [4]
    critic_optimizer := [5]
    ent_coef_optimizer := [6]
    has_ent_coef_optimizer := true
    hp := sampleHparams
    log_ent_coef := some 1
    ent_coef_tensor := none }

/-- A concrete archive holding only an actor section. -/
def sampleArchive : Archive :=
  { Archive.empty with actor := some [9] }

/-! # Theorems -/

/-! ## Library lemmas on the embedded operations -/

theorem polyakUpdate_one (source target : List ℚ)
    (h : source.length ≤ target.length) : polyakUpdate source target 1 = source := by
  induction source generalizing target with
  | nil => simp [polyakUpdate]
  | cons x xs ih =>
    cases target with
    | nil => simp at h
    | cons y ys =>
      simp only [polyakUpdate, List.zipWith, List.cons.injEq] at *
      constructor
      · ring
      · exact ih ys (Nat.le_of_succ_le_succ h)

theorem polyakUpdate_zero (source target : List ℚ)
    (h : target.length ≤ source.length) : polyakUpdate source target 0 = target := by
  induction source generalizing target with
  | nil =>
    cases target with
    | nil => simp [polyakUpdate]
    | cons y ys => simp at h
  | cons x xs ih =>
    cases target with
    | nil => simp [polyakUpdate]
    | cons y ys =>
      simp only [polyakUpdate, List.zipWith, List.cons.injEq] at *
      constructor
      · ring
      · exact ih ys (Nat.le_of_succ_le_succ h)

theorem time_steps_warmup_iterate (m : SACModel) :
    ∀ (n : ℕ) (s : SACState), ((warmupStep m)^[n] s).time_steps = s.time_steps := by
  intro n
  induction n with
  | zero => intro s; rfl
  | succ k ih =>
    intro s
    rw [Function.iterate_succ_apply]
    exact ih (warmupStep m s)

theorem time_steps_rollout_iterate (m : SACModel) :
    ∀ (n : ℕ) (s : SACState),
      ((rolloutStep m)^[n] s).time_steps = s.time_steps + n * m.numEnvs := by
  intro n
  induction n with
  | zero => intro s; simp
  | succ k ih =>
    intro s
    rw [Function.iterate_succ_apply, ih (rolloutStep m s)]
    show s.time_steps + m.numEnvs + k * m.numEnvs = s.time_steps + (k + 1) * m.numEnvs
    ring

theorem time_steps_collectRollouts (m : SACModel) (cfg : SACConfig) (s : SACState) :
    (collectRollouts m cfg s).time_steps = s.time_steps + cfg.train_freq * m.numEnvs := by
  unfold collectRollouts
  rw [time_steps_rollout_iterate]
  split
  · rw [time_steps_warmup_iterate]
  · rfl

theorem time_steps_trainStep (m : SACModel) (cfg : SACConfig) (s : SACState) (k : ℕ) :
    (trainStep m cfg s k).time_steps = s.time_steps := by
  unfold trainStep
  split <;> rfl

theorem time_steps_train_foldl (m : SACModel) (cfg : SACConfig) :
    ∀ (l : List ℕ) (s : SACState),
      (l.foldl (trainStep m cfg) s).time_steps = s.time_steps := by
  intro l
  induction l with
  | nil => intro s; rfl
  | cons k ks ih =>
    intro s
    rw [List.foldl_cons, ih (trainStep m cfg s k), time_steps_trainStep]

theorem time_steps_Train (m : SACModel) (cfg : SACConfig) (s : SACState) :
    (Train m cfg s).time_steps = s.time_steps := by
  show ((List.range cfg.gradient_steps).foldl (trainStep m cfg)
    { s with synced_at := [] }).time_steps = s.time_steps
  rw [time_steps_train_foldl]

theorem time_steps_learnIter (m : SACModel) (cfg : SACConfig) (s : SACState) :
    (learnIter m cfg s).time_steps = s.time_steps + cfg.train_freq * m.numEnvs := by
  show (Train m cfg (collectRollouts m cfg s)).time_steps
    = s.time_steps + cfg.train_freq * m.numEnvs
  rw [time_steps_Train, time_steps_collectRollouts]

theorem time_steps_learn_iterate (m : SACModel) (cfg : SACConfig) :
    ∀ (n : ℕ) (s : SACState),
      ((learnIter m cfg)^[n] s).time_steps
        = s.time_steps + n * (cfg.train_freq * m.numEnvs) := by
  intro n
  induction n with
  | zero => intro s; simp
  | succ k ih =>
    intro s
    rw [Function.iterate_succ_apply, ih (learnIter m cfg s), time_steps_learnIter]
    ring

theorem synced_at_trainStep_mono (m : SACModel) (cfg : SACConfig) (s : SACState)
    (k x : ℕ) (h : x ∈ s.synced_at) : x ∈ (trainStep m cfg s k).synced_at := by
  unfold trainStep
  split
  · exact List.mem_append_left _ h
  · exact h

theorem synced_at_train_foldl_mono (m : SACModel) (cfg : SACConfig) :
    ∀ (l : List ℕ) (s : SACState) (x : ℕ),
      x ∈ s.synced_at → x ∈ (l.foldl (trainStep m cfg) s).synced_at := by
  intro l
  induction l with
  | nil => intro s x h; exact h
  | cons k ks ih =>
    intro s x h
    rw [List.foldl_cons]
    exact ih (trainStep m cfg s k) x (synced_at_trainStep_mono m cfg s k x h)

/-! ## Claim theorems -/

/-- C1: the target Q-value of each gradient step of SAC::Train equals
`reward + (1 - done) * gamma * (min over critic-target outputs - ent_coef *
next_log_prob)`, and for a transition with done = 1 the bootstrap
coefficient of the term is zero, so the target equals the reward exactly. -/
theorem targetQ_terminal_eq_reward (gamma ec reward nlp done : ℚ) (outs : List ℚ)
    (h : done = 1) :
    targetQValue gamma reward done (nextQValue outs ec nlp)
      = reward + (1 - done) * gamma * (listMin outs - ec * nlp)
    ∧ targetQValue gamma reward done (nextQValue outs ec nlp) = reward := by
  constructor
  · rfl
  · subst h
    unfold targetQValue nextQValue
    ring

/-- C1 witness: concrete evaluation at done = 1. -/
theorem targetQ_terminal_eq_reward_witness :
    ((1 : ℚ) = 1)
    ∧ targetQValue (99/100) 5 1 (nextQValue [2, 3] (1/2) 4) = 5 :=
  ⟨rfl, (targetQ_terminal_eq_reward (99/100) (1/2) 5 4 1 [2, 3] rfl).2⟩

/-- C2: after Reset the critic-target parameters and buffers equal the
critic values exactly; the Polyak update with tau = 1 copies the source
parameters, with tau = 0 leaves the target unchanged; and on every
gradient step whose index passes the interval guard, the target
parameters are Polyak-averaged with factor tau while the target buffers
are always updated with factor 1 (a hard copy). -/
theorem critic_target_sync_polyak (m : SACModel) (p t : List ℚ)
    (h : p.length = t.length) :
    (resetState m).critic_target_params = (resetState m).critic_params
    ∧ (resetState m).critic_target_buffers = (resetState m).critic_buffers
    ∧ polyakUpdate p t 1 = p
    ∧ polyakUpdate p t 0 = t
    ∧ ∀ (cfg : SACConfig) (s : SACState) (k : ℕ),
        k % cfg.target_update_interval = 0 →
        (trainStep m cfg s k).critic_target_params
            = polyakUpdate (m.criticOpt k) s.critic_target_params cfg.tau
          ∧ (trainStep m cfg s k).critic_target_buffers
            = polyakUpdate (m.criticBufUpdate k) s.critic_target_buffers 1 := by
  refine ⟨rfl, rfl, polyakUpdate_one p t h.le, polyakUpdate_zero p t h.ge, ?_⟩
  intro cfg s k hk
  unfold trainStep
  rw [if_pos hk]
  exact ⟨rfl, rfl⟩

/-- C2 witness: concrete parameter vectors of equal length. -/
theorem critic_target_sync_polyak_witness :
    ([(1 : ℚ), 2].length = [(3 : ℚ), 4].length)
    ∧ polyakUpdate [1, 2] [3, 4] 1 = [1, 2]
    ∧ polyakUpdate [1, 2] [3, 4] 0 = [3, 4] :=
  ⟨rfl,
   (critic_target_sync_polyak stubModel [1, 2] [3, 4] rfl).2.2.1,
   (critic_target_sync_polyak stubModel [1, 2] [3, 4] rfl).2.2.2.1⟩

/-- C3: after N > 0 iterations of the Learn loop body, `time_steps` equals
`NumEnvs() * train_freq * N`: each iteration adds `NumEnvs()` per policy
action for `train_freq` actions, and warmup transitions add nothing. -/
theorem time_steps_after_learn_iters (m : SACModel) (cfg : SACConfig)
    (s : SACState) (N : ℕ) (hN : 0 < N) :
    ((learnIter m cfg)^[N] (learnInit s)).time_steps
      = m.numEnvs * cfg.train_freq * N := by
  rw [time_steps_learn_iterate]
  show 0 + N * (cfg.train_freq * m.numEnvs) = m.numEnvs * cfg.train_freq * N
  ring

/-- C3 witness: two iterations on the stub model. -/
theorem time_steps_after_learn_iters_witness :
    0 < 2
    ∧ ((learnIter stubModel scenarioConfig)^[2]
        (learnInit (resetState stubModel))).time_steps
      = stubModel.numEnvs * scenarioConfig.train_freq * 2 :=
  ⟨by decide,
   time_steps_after_learn_iters stubModel scenarioConfig (resetState stubModel) 2
     (by decide)⟩

/-- C4: end-to-end scenario of spec section 8 (learning_starts = 10,
batch_size = 4, train_freq = 1, gradient_steps = 1,
target_update_interval = 1, tau = 1, one environment, constant stub
rewards): after Reset and one Learn iteration the buffer holds 11
transitions, num_updates is 1, time_steps is 1, and the critic-target
parameters equal the critic parameters. -/
theorem end_to_end_scenario :
    (learnIter stubModel scenarioConfig (learnInit (resetState stubModel))).buffer.data.length = 11
    ∧ (learnIter stubModel scenarioConfig (learnInit (resetState stubModel))).num_updates = 1
    ∧ (learnIter stubModel scenarioConfig (learnInit (resetState stubModel))).time_steps = 1
    ∧ (learnIter stubModel scenarioConfig (learnInit (resetState stubModel))).critic_target_params
      = (learnIter stubModel scenarioConfig (learnInit (resetState stubModel))).critic_params := by
  refine ⟨by decide, by decide, by decide, ?_⟩
  have h1 : (learnIter stubModel scenarioConfig
      (learnInit (resetState stubModel))).critic_target_params
    = polyakUpdate [5, 7] [2, -3] 1 := rfl
  have h2 : (learnIter stubModel scenarioConfig
      (learnInit (resetState stubModel))).critic_params = [5, 7] := rfl
  rw [h1, h2]
  exact polyakUpdate_one [5, 7] [2, -3] (by decide)

/-- C5: in auto entropy mode the entropy-coefficient optimizer step comes
before the target-Q computation and before the critic and actor optimizer
steps of the same gradient step, and the entropy coefficient entering the
target-Q, critic, and actor losses is detached, so those losses carry zero
derivative with respect to `log_ent_coef_`. -/
theorem ent_coef_step_order_and_detached (sync : Bool) (f fd : ℚ → ℚ)
    (l gamma reward done nmin nlp lp q mq : ℚ) :
    ((gradStepTrace true sync).indexOf TrainEvent.ent_coef_opt_step
        < (gradStepTrace true sync).indexOf TrainEvent.target_q_compute
      ∧ (gradStepTrace true sync).indexOf TrainEvent.target_q_compute
        < (gradStepTrace true sync).indexOf TrainEvent.critic_opt_step
      ∧ (gradStepTrace true sync).indexOf TrainEvent.ent_coef_opt_step
        < (gradStepTrace true sync).indexOf TrainEvent.actor_opt_step)
    ∧ (targetQDual f fd l gamma reward done nmin nlp).grad = 0
    ∧ (criticLossDual f fd l gamma reward done nmin nlp q).grad = 0
    ∧ (actorLossDual f fd l lp mq).grad = 0 := by
  refine ⟨?_, ?_, ?_, ?_⟩
  · cases sync <;> decide
  · simp [targetQDual, entCoefDetached, logEntCoefVar, Dual.add, Dual.mul, Dual.sub,
      Dual.const, Dual.applyFn, Dual.detach]
  · simp [criticLossDual, targetQDual, entCoefDetached, logEntCoefVar, Dual.add,
      Dual.mul, Dual.sub, Dual.const, Dual.applyFn, Dual.detach]
  · simp [actorLossDual, entCoefDetached, logEntCoefVar, Dual.mul, Dual.sub,
      Dual.const, Dual.applyFn, Dual.detach]

/-- C6: evaluation of the embedded constructor and Reset. A SAC
constructed with target_entropy = 5 supplied leaves `auto_target_entropy_`
uninitialized; when that indeterminate member reads as true, Reset in auto
entropy mode overwrites the supplied value with the heuristic
-prod(action_shape) = -2, contradicting the claim that a supplied value is
retained. Dually, with auto_ent_coef = false and no supplied value, Reset
never derives the heuristic and the target entropy stays uninitialized.
The heuristic itself, in the intended case (auto mode, nothing supplied),
is the negated product of the action dimensions. -/
theorem target_entropy_init_bug :
    (resetTargetEntropy true [2] true (sacConstruct (some 5))).target_entropy = some (-2)
    ∧ (sacConstruct (some 5)).target_entropy = some 5
    ∧ (resetTargetEntropy false [2] false (sacConstruct none)).target_entropy = none
    ∧ (resetTargetEntropy true [3, 4] false (sacConstruct none)).target_entropy
      = some (-12) := by
  refine ⟨?_, rfl, rfl, ?_⟩
  · show some (heuristicTargetEntropy [2]) = some (-2)
    unfold heuristicTargetEntropy
    norm_num
  · show some (heuristicTargetEntropy [3, 4]) = some (-12)
    unfold heuristicTargetEntropy
    norm_num

/-- C7: saving the hparams section and loading it back restores every one
of the eleven scalar hyperparameter fields to its exact original value. -/
theorem hparams_save_load_roundtrip (s : SACPersist) :
    (loadArchive (saveArchive s [SectionName.hparams]) [SectionName.hparams] s).hp
      = s.hp := by
  simp [loadArchive, saveArchive, loadHparams, wants]

/-- C8: loading from an archive with every section absent is a no-op for
any requested names; and when a section is not requested (and "all" is not
requested) the state belonging to that section is untouched, including the
hparams scalars and the optional tensors; an individual absent hparams key
also leaves its field unchanged. -/
theorem load_absent_noop_subset_untouched :
    (∀ (names : List SectionName) (s : SACPersist),
      loadArchive Archive.empty names s = s)
    ∧ (∀ (a : Archive) (names : List SectionName) (s : SACPersist),
        (wants names SectionName.actor = false →
          (loadArchive a names s).actor = s.actor)
        ∧ (wants names SectionName.critic = false →
            (loadArchive a names s).critic = s.critic)
        ∧ (wants names SectionName.critic_target = false →
            (loadArchive a names s).critic_target = s.critic_target)
        ∧ (wants names SectionName.actor_optimizer = false →
            (loadArchive a names s).actor_optimizer = s.actor_optimizer)
        ∧ (wants names SectionName.critic_optimizer = false →
            (loadArchive a names s).critic_optimizer = s.critic_optimizer)
        ∧ (wants names SectionName.ent_coef_optimizer = false →
            (loadArchive a names s).ent_coef_optimizer = s.ent_coef_optimizer)
        ∧ (wants names SectionName.hparams = false →
            (loadArchive a names s).hp = s.hp
            ∧ (loadArchive a names s).log_ent_coef = s.log_ent_coef
            ∧ (loadArchive a names s).ent_coef_tensor = s.ent_coef_tensor)
        ∧ (a.tau = none → (loadArchive a names s).hp.tau = s.hp.tau)) := by
  constructor
  · intro names s
    simp [loadArchive, loadHparams, Archive.empty]
  · intro a names s
    refine ⟨?_, ?_, ?_, ?_, ?_, ?_, ?_, ?_⟩
    · intro h; simp [loadArchive, h]
    · intro h; simp [loadArchive, h]
    · intro h; simp [loadArchive, h]
    · intro h; simp [loadArchive, h]
    · intro h; simp [loadArchive, h]
    · intro h; simp [loadArchive, h]
    · intro h; simp [loadArchive, h]
    · intro h
      by_cases hw : wants names SectionName.hparams = true
      · simp [loadArchive, loadHparams, hw, h]
      · simp [loadArchive, hw]

/-- C8 witness: concrete no-op load from an empty archive and a concrete
subset load that leaves an unrequested section untouched. -/
theorem load_absent_noop_subset_untouched_witness :
    loadArchive Archive.empty [SectionName.critic] samplePersist = samplePersist
    ∧ (loadArchive sampleArchive [SectionName.actor] samplePersist).critic
      = samplePersist.critic :=
  ⟨load_absent_noop_subset_untouched.1 [SectionName.critic] samplePersist,
   (load_absent_noop_subset_untouched.2 sampleArchive [SectionName.actor]
     samplePersist).2.1 (by decide)⟩

/-- C9: in fixed entropy mode the `ent_coef_loss` metric is never
registered and the Train logging epilogue never creates it; in auto mode
it is registered (initially undefined) and holds the accumulated mean
after the logging epilogue of Train runs. -/
theorem ent_coef_loss_registration (nu ec al cl ecl qv rw : ℚ) :
    getLogItem (registerLogItems false) LogKey.ent_coef_loss = none
    ∧ getLogItem (trainLogUpdate (registerLogItems false) nu ec al cl ecl qv rw)
        LogKey.ent_coef_loss = none
    ∧ getLogItem (registerLogItems true) LogKey.ent_coef_loss = some none
    ∧ getLogItem (trainLogUpdate (registerLogItems true) nu ec al cl ecl qv rw)
        LogKey.ent_coef_loss = some (some ecl) :=
  ⟨rfl, rfl, rfl, rfl⟩

/-- C10: in every Train call with gradient_steps >= 1 and
target_update_interval >= 1, the target synchronization fires on the first
gradient step of the call, because the guarded step index is local to the
call and restarts at 0, and 0 is divisible by every positive interval. -/
theorem target_sync_first_gradient_step (m : SACModel) (cfg : SACConfig)
    (s : SACState) (hi : 1 ≤ cfg.target_update_interval)
    (hg : 1 ≤ cfg.gradient_steps) :
    0 ∈ (Train m cfg s).synced_at := by
  show 0 ∈ ((List.range cfg.gradient_steps).foldl (trainStep m cfg)
    { s with synced_at := [] }).synced_at
  obtain ⟨n, hn⟩ : ∃ n, cfg.gradient_steps = n + 1 :=
    ⟨cfg.gradient_steps - 1, by omega⟩
  rw [hn, List.range_succ_eq_map, List.foldl_cons]
  apply synced_at_train_foldl_mono
  unfold trainStep
  rw [if_pos (Nat.zero_mod _)]
  simp

/-- C10 witness: the scenario configuration with interval 1 and one
gradient step syncs at step 0. -/
theorem target_sync_first_gradient_step_witness :
    1 ≤ scenarioConfig.target_update_interval
    ∧ 1 ≤ scenarioConfig.gradient_steps
    ∧ 0 ∈ (Train stubModel scenarioConfig (resetState stubModel)).synced_at :=
  ⟨by decide, by decide,
   target_sync_first_gradient_step stubModel scenarioConfig (resetState stubModel)
     (by decide) (by decide)⟩

end RLOP
